import Mathlib

/-!
Verification of the dispatch/auth core of the cs-demo-manager web fork.

The development shallowly embeds, in Lean, the parts of the source that the
verified properties are about:

* the session store (`src/server/auth/session-store.ts`, bundled in the
  excerpt next to `watch-demo-handler.ts`): `createSession`, `getSession`,
  `deleteSession`, `deleteUserSessions`, `cleanExpiredSessions`,
  `generateSessionId`;
* the user store (`src/server/auth/user-store.ts`): `createUser`,
  `verifyCredentials`, `updatePassword`, `hashPassword` (SHA-256, fully
  implemented below so that the default credentials are checked against the
  real digest);
* the auth handlers (`login-handler.ts`, `check-auth-handler.ts`,
  `logout-handler.ts`);
* the HTTP transport gating pipeline `executeHandler` from
  `src/server/http-server.ts`, together with its `publicHandlers` and
  `handlersWithoutDatabase` exemption sets;
* the client side `HttpApiClient.send` / `HybridApiClient.send`.

Wall-clock time (`Date.now()`) is passed as an explicit natural number of
milliseconds, the PRNG draws of `Math.random().toString(36).substring(2, 15)`
are passed as explicit strings, and the mutable singleton stores are passed
as explicit state values, so every definition is executable.
-/

namespace Csdm

/-! ## Operation names

The `RendererClientMessageName` enum itself is not part of the excerpt; only
the five members used by the gating pipeline are referenced by the server
code. We model the name space as the five known members plus arbitrary other
names. `initApplication` stands for the `InitializeApplication` member
(the bootstrap operation). -/

inductive MessageName where
  | initApplication
  | connectDatabase
  | login
  | logout
  | checkAuth
  | writeBase64File
  | other (name : String)
deriving DecidableEq

/-- Modelled from the spec: the closed error-kind enumeration carried on the
wire (the file `src/common/error-code.ts` is not part of the excerpt).
`UnknownError` is the generic kind produced for any uncaught fault;
`DomainError n` stands for a handler-specific numeric code `n`. -/
inductive ErrorCode where
  | UnknownError
  | DomainError (code : Nat)
deriving DecidableEq

/-- A value appearing in the `error` field of a response body: either a
numeric `ErrorCode` member or a string literal (the server writes the
literals "UNAUTHORIZED" and "Handler not found" directly). -/
inductive ErrorValue where
  | code (c : ErrorCode)
  | litStr (s : String)
deriving DecidableEq

/-- A JSON-like payload / result value, as far as the dispatch layer
inspects it. -/
inductive Value where
  | null
  | bool (b : Bool)
  | num (n : Nat)
  | str (s : String)
  | obj (fields : List (String × Value))

/-! ## Session store (`session-store.ts`) -/

structure Session where
  sessionId : String
  username : String
  createdAt : Nat
  expiresAt : Nat
deriving DecidableEq

/-- The in-memory `Map<string, Session>` of the store, as an association
list. `mapSet` keeps keys unique, so `filter`-based deletion matches the
JavaScript `Map.delete` semantics. -/
abbrev SessionMap := List (String × Session)

def mapGet (st : SessionMap) (sessionId : String) : Option Session :=
  (st.find? (fun e => e.1 == sessionId)).map (fun e => e.2)

def mapDelete (st : SessionMap) (sessionId : String) : SessionMap :=
  st.filter (fun e => !(e.1 == sessionId))

def mapSet (st : SessionMap) (sessionId : String) (session : Session) : SessionMap :=
  (sessionId, session) :: mapDelete st sessionId

/-- `SESSION_DURATION_MS = 7 * 24 * 60 * 60 * 1000` (7 days). -/
def SESSION_DURATION_MS : Nat := 7 * 24 * 60 * 60 * 1000

/-- The token built by `generateSessionId`:
`Date.now() + "-" + r1 + "-" + r2` where `r1`, `r2` are the strings
contributed by the two `Math.random().toString(36).substring(2, 15)` draws. -/
def generateSessionId (now : Nat) (rand1 rand2 : String) : String :=
  toString now ++ "-" ++ rand1 ++ "-" ++ rand2

/-- `cleanExpiredSessions`: delete every session with `now > expiresAt`. -/
def cleanExpiredSessions (st : SessionMap) (now : Nat) : SessionMap :=
  st.filter (fun e => !(decide (now > e.2.expiresAt)))

/-- `createSession(username)`: store a fresh session expiring at
`now + SESSION_DURATION_MS` under the generated id `sid`, then run the
amortized expiry sweep. Returns the session and the updated store. -/
def createSession (st : SessionMap) (username : String) (now : Nat)
    (sid : String) : Session × SessionMap :=
  let session : Session :=
    { sessionId := sid, username := username, createdAt := now
      expiresAt := now + SESSION_DURATION_MS }
  (session, cleanExpiredSessions (mapSet st sid session) now)

/-- `getSession(sessionId)`: absent gives `none`; present but
`now > expiresAt` gives `none` and deletes the entry (lazy expiry);
otherwise the stored session. Returns the result and the updated store. -/
def getSession (st : SessionMap) (now : Nat) (sessionId : String) :
    Option Session × SessionMap :=
  match mapGet st sessionId with
  | none => (none, st)
  | some session =>
    if now > session.expiresAt then (none, mapDelete st sessionId)
    else (some session, st)

/-- `deleteSession(sessionId)`: returns whether an entry was removed. -/
def deleteSession (st : SessionMap) (sessionId : String) : Bool × SessionMap :=
  ((mapGet st sessionId).isSome, mapDelete st sessionId)

/-- `deleteUserSessions(username)`: remove every session of a user. -/
def deleteUserSessions (st : SessionMap) (username : String) : SessionMap :=
  st.filter (fun e => !(e.2.username == username))

/-! ## SHA-256

`UserStore.hashPassword` computes
`crypto.createHash('sha256').update(password).digest('hex')`. The algorithm
(FIPS 180-4) is implemented here over `Nat` with explicit reduction modulo
`2 ^ 32`, so the digest of the default credentials can be evaluated inside
Lean. -/

namespace Sha256

def mask32 (n : Nat) : Nat := n % 4294967296

def rotr (k n : Nat) : Nat := mask32 ((n >>> k) ||| (n <<< (32 - k)))

def smallSigma0 (n : Nat) : Nat := rotr 7 n ^^^ rotr 18 n ^^^ (n >>> 3)

def smallSigma1 (n : Nat) : Nat := rotr 17 n ^^^ rotr 19 n ^^^ (n >>> 10)

def bigSigma0 (n : Nat) : Nat := rotr 2 n ^^^ rotr 13 n ^^^ rotr 22 n

def bigSigma1 (n : Nat) : Nat := rotr 6 n ^^^ rotr 11 n ^^^ rotr 25 n

def ch (e f g : Nat) : Nat := (e &&& f) ^^^ ((e ^^^ 4294967295) &&& g)

def maj (a b c : Nat) : Nat := (a &&& b) ^^^ (a &&& c) ^^^ (b &&& c)

/-- The 64 round constants of FIPS 180-4, written in decimal. -/
def roundConstants : List Nat :=
  [1116352408, 1899447441, 3049323471, 3921009573,
   961987163, 1508970993, 2453635748, 2870763221,
   3624381080, 310598401, 607225278, 1426881987,
   1925078388, 2162078206, 2614888103, 3248222580,
   3835390401, 4022224774, 264347078, 604807628,
   770255983, 1249150122, 1555081692, 1996064986,
   2554220882, 2821834349, 2952996808, 3210313671,
   3336571891, 3584528711, 113926993, 338241895,
   666307205, 773529912, 1294757372, 1396182291,
   1695183700, 1986661051, 2177026350, 2456956037,
   2730485921, 2820302411, 3259730800, 3345764771,
   3516065817, 3600352804, 4094571909, 275423344,
   430227734, 506948616, 659060556, 883997877,
   958139571, 1322822218, 1537002063, 1747873779,
   1955562222, 2024104815, 2227730452, 2361852424,
   2428436474, 2756734187, 3204031479, 3329325298]

/-- The eight 32-bit working variables of the compression function. -/
structure Hash8 where
  a : Nat
  b : Nat
  c : Nat
  d : Nat
  e : Nat
  f : Nat
  g : Nat
  h : Nat

def initialHash : Hash8 :=
  { a := 1779033703, b := 3144134277, c := 1013904242, d := 2773480762
    e := 1359893119, f := 2600822924, g := 528734635, h := 1541459225 }

/-- UTF-8 encoding of one code point. -/
def utf8Bytes (n : Nat) : List Nat :=
  if n < 0x80 then [n]
  else if n < 0x800 then
    [0xC0 ||| (n >>> 6), 0x80 ||| (n &&& 0x3F)]
  else if n < 0x10000 then
    [0xE0 ||| (n >>> 12), 0x80 ||| ((n >>> 6) &&& 0x3F), 0x80 ||| (n &&& 0x3F)]
  else
    [0xF0 ||| (n >>> 18), 0x80 ||| ((n >>> 12) &&& 0x3F),
     0x80 ||| ((n >>> 6) &&& 0x3F), 0x80 ||| (n &&& 0x3F)]

def strBytes (s : String) : List Nat :=
  (s.data.map (fun c => utf8Bytes c.toNat)).flatten

/-- Big-endian bytes of `n`, `k` bytes wide. -/
def beBytes : Nat → Nat → List Nat
  | 0, _ => []
  | k + 1, n => ((n >>> (8 * k)) &&& 255) :: beBytes k n

/-- Append the 0x80 byte, the zero padding and the 64-bit big-endian bit
length, reaching a multiple of 64 bytes. -/
def padMessage (msg : List Nat) : List Nat :=
  let padZeros := (55 + 64 - (msg.length % 64)) % 64
  msg ++ [0x80] ++ List.replicate padZeros 0 ++ beBytes 8 (8 * msg.length)

/-- Group bytes into big-endian 32-bit words. -/
def bytesToWords : List Nat → List Nat
  | b0 :: b1 :: b2 :: b3 :: rest =>
      ((((b0 <<< 8) ||| b1) <<< 8 ||| b2) <<< 8 ||| b3) :: bytesToWords rest
  | _ => []

/-- Group words into blocks of 16. -/
def toBlocks : List Nat → List (List Nat)
  | w0 :: w1 :: w2 :: w3 :: w4 :: w5 :: w6 :: w7 ::
    w8 :: w9 :: w10 :: w11 :: w12 :: w13 :: w14 :: w15 :: rest =>
      [w0, w1, w2, w3, w4, w5, w6, w7, w8, w9, w10, w11, w12, w13, w14, w15]
        :: toBlocks rest
  | _ => []

def wordAt (w : List Nat) (i : Nat) : Nat := w.getD i 0

/-- Extend the 16 block words to the 64-entry message schedule. -/
def buildSchedule (block : List Nat) : List Nat :=
  (List.range 48).foldl
    (fun w j =>
      let i := j + 16
      w ++ [mask32 (smallSigma1 (wordAt w (i - 2)) + wordAt w (i - 7) +
                    smallSigma0 (wordAt w (i - 15)) + wordAt w (i - 16))])
    block

def roundStep (s : Hash8) (kw : Nat × Nat) : Hash8 :=
  let t1 := mask32 (s.h + bigSigma1 s.e + ch s.e s.f s.g + kw.1 + kw.2)
  let t2 := mask32 (bigSigma0 s.a + maj s.a s.b s.c)
  { a := mask32 (t1 + t2), b := s.a, c := s.b, d := s.c
    e := mask32 (s.d + t1), f := s.e, g := s.f, h := s.g }

def compressBlock (H : Hash8) (block : List Nat) : Hash8 :=
  let w := buildSchedule block
  let s := (roundConstants.zip w).foldl roundStep H
  { a := mask32 (H.a + s.a), b := mask32 (H.b + s.b), c := mask32 (H.c + s.c)
    d := mask32 (H.d + s.d), e := mask32 (H.e + s.e), f := mask32 (H.f + s.f)
    g := mask32 (H.g + s.g), h := mask32 (H.h + s.h) }

/-- The 32 digest bytes of a byte message. -/
def digestBytes (msg : List Nat) : List Nat :=
  let final := (toBlocks (bytesToWords (padMessage msg))).foldl
    compressBlock initialHash
  beBytes 4 final.a ++ beBytes 4 final.b ++ beBytes 4 final.c ++
  beBytes 4 final.d ++ beBytes 4 final.e ++ beBytes 4 final.f ++
  beBytes 4 final.g ++ beBytes 4 final.h

def hexDigit (n : Nat) : Char :=
  if n < 10 then Char.ofNat (48 + n) else Char.ofNat (87 + n)

def toHex (bytes : List Nat) : String :=
  String.mk (bytes.flatMap (fun b => [hexDigit (b / 16), hexDigit (b % 16)]))

/-- Lowercase hex SHA-256 digest of the UTF-8 bytes of a string. -/
def hexDigest (s : String) : String := toHex (digestBytes (strBytes s))

end Sha256

/-! ## User store (`user-store.ts`) -/

structure User where
  username : String
  passwordHash : String
  createdAt : Nat
deriving DecidableEq

abbrev UserMap := List (String × User)

def userGet (users : UserMap) (username : String) : Option User :=
  (users.find? (fun e => e.1 == username)).map (fun e => e.2)

def userSet (users : UserMap) (username : String) (user : User) : UserMap :=
  (username, user) :: users.filter (fun e => !(e.1 == username))

/-- `hashPassword(password)`: plain SHA-256 hex digest. -/
def hashPassword (password : String) : String := Sha256.hexDigest password

/-- `createUser(username, password)`: store the user with the hashed
password; returns the user and the updated map. -/
def createUser (users : UserMap) (username password : String) (now : Nat) :
    User × UserMap :=
  let user : User :=
    { username := username, passwordHash := hashPassword password
      createdAt := now }
  (user, userSet users username user)

/-- The `UserStore` constructor: `createUser('admin', 'admin')` on an empty
map, so every fresh store holds the default credentials. -/
def userStoreInit (now : Nat) : UserMap :=
  (createUser [] "admin" "admin" now).2

/-- `verifyCredentials(username, password)`: false for an unknown user,
otherwise hash comparison. -/
def verifyCredentials (users : UserMap) (username password : String) : Bool :=
  match userGet users username with
  | none => false
  | some user => user.passwordHash == hashPassword password

/-- `updatePassword(username, newPassword)`: replace the stored hash;
returns whether the user existed. It touches nothing but the user map. -/
def updatePassword (users : UserMap) (username newPassword : String) :
    Bool × UserMap :=
  match userGet users username with
  | none => (false, users)
  | some user =>
    (true, userSet users username
      { user with passwordHash := hashPassword newPassword })

/-! ## Server auth state

The two stores are separate module-level singletons (`userStore`,
`sessionStore`); combined here so that an operation on one can be observed
not to affect the other. -/

structure ServerAuthState where
  users : UserMap
  sessions : SessionMap
deriving DecidableEq

/-- `UserStore.updatePassword` run against the whole server auth state: it
is a method of the user store alone, and no code path in the repository
calls `sessionStore.deleteUserSessions` when it runs. -/
def updatePasswordApp (st : ServerAuthState) (username newPassword : String) :
    Bool × ServerAuthState :=
  let r := updatePassword st.users username newPassword
  (r.1, { st with users := r.2 })

/-! ## Thrown errors and their translation

Handlers signal failure by throwing; the single catch block in
`executeHandler` converts the thrown value with `getErrorCodeFromError` and
`error instanceof Error ? error.message : 'Unknown error'`. -/

/-- A value thrown by a handler: either an `ErrorCode` member or a
JavaScript `Error` carrying a message. -/
inductive ThrownError where
  | code (c : ErrorCode)
  | jsError (message : String)
deriving DecidableEq

/-- Modelled from the spec: `getErrorCodeFromError` (its file is not part
of the excerpt) derives the wire error kind from a thrown domain error and
maps any other uncaught fault to `UnknownError`. -/
def getErrorCodeFromError : ThrownError → ErrorCode
  | .code c => c
  | .jsError _ => .UnknownError

/-- The `message` field written by the catch block:
`error instanceof Error ? error.message : 'Unknown error'`. -/
def thrownMessage : ThrownError → String
  | .code _ => "Unknown error"
  | .jsError m => m

/-! ## Auth handlers -/

structure LoginPayload where
  username : String
  password : String
deriving DecidableEq

structure LoginResponse where
  success : Bool
  sessionId : String
  username : String
deriving DecidableEq

/-- `loginHandler(payload)`: reject missing fields, check the credentials,
create a session on success. `now` and `sid` stand for `Date.now()` and the
generated session id; the session map is threaded explicitly. -/
def loginHandler (users : UserMap) (now : Nat) (sid : String)
    (payload : LoginPayload) (st : SessionMap) :
    Except ThrownError LoginResponse × SessionMap :=
  if payload.username = "" ∨ payload.password = "" then
    (.error (.jsError "Username and password are required"), st)
  else if verifyCredentials users payload.username payload.password then
    let r := createSession st payload.username now sid
    (.ok { success := true, sessionId := r.1.sessionId
           username := r.1.username }, r.2)
  else
    (.error (.jsError "Invalid username or password"), st)

structure CheckAuthResponse where
  authenticated : Bool
  username : Option String
deriving DecidableEq

/-- `checkAuthHandler(payload)`: empty or unresolvable session id gives
`authenticated: false`. -/
def checkAuthHandler (st : SessionMap) (now : Nat) (sessionId : String) :
    CheckAuthResponse × SessionMap :=
  if sessionId = "" then ({ authenticated := false, username := none }, st)
  else
    match getSession st now sessionId with
    | (none, st') => ({ authenticated := false, username := none }, st')
    | (some session, st') =>
      ({ authenticated := true, username := some session.username }, st')

/-- `logoutHandler(payload)`: requires a session id, then deletes it. -/
def logoutHandler (st : SessionMap) (sessionId : String) :
    Except ThrownError Unit × SessionMap :=
  if sessionId = "" then (.error (.jsError "Session ID is required"), st)
  else (.ok (), (deleteSession st sessionId).2)

/-! ## Gating pipeline (`executeHandler` in `http-server.ts`) -/

/-- What an invoked handler produces: a value, `undefined` (a void
operation), or a thrown error. -/
inductive HandlerOutcome where
  | value (v : Value)
  | void
  | thrown (e : ThrownError)

/-- A registered handler: it receives the payload (or no argument, when the
payload is not a non-empty object) and may read and update the session
store singleton. -/
abbrev Handler := Option Value → SessionMap → HandlerOutcome × SessionMap

/-- The handler registry `rendererHandlers`, populated once at startup. -/
abbrev Registry := MessageName → Option Handler

/-- `handlersWithoutDatabase`: operations exempt from the
database-readiness gate. -/
def handlersWithoutDatabase : List MessageName :=
  [.initApplication, .connectDatabase, .login, .logout, .checkAuth]

/-- `publicHandlers`: operations exempt from the authentication gate. -/
def publicHandlers : List MessageName :=
  [.initApplication, .connectDatabase, .login, .checkAuth]

/-- The JSON response body, with one optional slot per field the server
ever writes. The absence of a field models the key being absent from the
serialized object. -/
structure JsonBody where
  success : Bool
  data : Option Value := none
  error : Option ErrorValue := none
  message : Option String := none
  messageName : Option MessageName := none

/-- The observable outcome of one `executeHandler` call: HTTP status,
body, whether the registered handler ran, and the session store after the
call. -/
structure ExecResult where
  status : Nat
  body : JsonBody
  handlerInvoked : Bool
  sessions : SessionMap

/-- The check `payload && typeof payload === 'object' &&
Object.keys(payload).length > 0`. -/
def hasPayload : Option Value → Bool
  | some (.obj fields) => !fields.isEmpty
  | _ => false

/-- The HTTP dispatch pipeline: registry lookup, authentication gate
(skipped for `publicHandlers`), database-readiness gate (skipped for
`handlersWithoutDatabase`), then handler invocation with the uniform
success/failure serialization. `dbConnected` is the result of the awaited
`checkDatabaseConnection()`; `sessionId` is the `x-session-id` header. -/
def executeHandler (registry : Registry) (st : SessionMap) (now : Nat)
    (dbConnected : Bool) (messageName : MessageName) (payload : Option Value)
    (sessionId : Option String) : ExecResult :=
  match registry messageName with
  | none =>
      { status := 404
        body := { success := false
                  error := some (.litStr "Handler not found")
                  messageName := some messageName }
        handlerInvoked := false, sessions := st }
  | some handler =>
    let auth : Option ExecResult × SessionMap :=
      if messageName ∈ publicHandlers then (none, st)
      else
        match sessionId with
        | none =>
          (some { status := 401
                  body := { success := false
                            error := some (.litStr "UNAUTHORIZED")
                            message := some "Authentication required" }
                  handlerInvoked := false, sessions := st }, st)
        | some sid =>
          let r := getSession st now sid
          match r.1 with
          | none =>
            (some { status := 401
                    body := { success := false
                              error := some (.litStr "UNAUTHORIZED")
                              message := some "Invalid or expired session" }
                    handlerInvoked := false, sessions := r.2 }, r.2)
          | some _ => (none, r.2)
    match auth.1 with
    | some result => result
    | none =>
      if messageName ∉ handlersWithoutDatabase ∧ dbConnected = false then
        { status := 503
          body := { success := false
                    error := some (.code .UnknownError)
                    message :=
                      some "Database not connected. Please connect to database first." }
          handlerInvoked := false, sessions := auth.2 }
      else
        let arg := if hasPayload payload then payload else none
        let r := handler arg auth.2
        match r.1 with
        | .void =>
          { status := 200, body := { success := true }
            handlerInvoked := true, sessions := r.2 }
        | .value v =>
          { status := 200, body := { success := true, data := some v }
            handlerInvoked := true, sessions := r.2 }
        | .thrown e =>
          { status := 500
            body := { success := false
                      error := some (.code (getErrorCodeFromError e))
                      message := some (thrownMessage e) }
            handlerInvoked := true, sessions := r.2 }

/-! ## HTTP client and hybrid client (`http-api-client.ts`,
`hybrid-api-client.ts`) -/

/-- The parsed result a `fetch` in `HttpClient.request` produced:
mirrors `ApiResult` on the client. -/
inductive ApiResult where
  | success (data : Value)
  | failure (error : ErrorValue) (message : Option String)

/-- `HttpApiClient.send`: success returns the data; failure throws the
numeric error code when the `error` field is a number and
`ErrorCode.UnknownError` otherwise, so the caller always receives a typed
`ErrorCode`. -/
def httpApiSend (r : ApiResult) : Except ErrorCode Value :=
  match r with
  | .success d => .ok d
  | .failure (.code c) _ => .error c
  | .failure (.litStr _) _ => .error .UnknownError

/-- The hybrid client: an HTTP client (always present) and a push-channel
client whose state is an arbitrary `Ws`. -/
structure HybridApiClient (Ws : Type) where
  wsClient : Option Ws

/-- `HybridApiClient.send`: delegates to `HttpApiClient.send`; the push
client plays no part. -/
def hybridSend {Ws : Type} (_client : HybridApiClient Ws) (r : ApiResult) :
    Except ErrorCode Value :=
  httpApiSend r

/-! ## The uniform envelope contract, and concrete instances used in the
theorems -/

/-- Whether an `error` field value denotes a kind of the closed
enumeration: every `ErrorCode` member does, and the literal "UNAUTHORIZED"
denotes the `Unauthorized` kind. -/
def errorIsKind : ErrorValue → Bool
  | .code _ => true
  | .litStr s => s == "UNAUTHORIZED"

/-- The uniform envelope contract, stated from the words of the spec:
a success body is `{success: true, data}` with `data` optional and no
error fields; a failure body is `{success: false, error, message}` with
`error` a kind from the closed enumeration, and carries no data and no
other field. -/
def uniformEnvelope (b : JsonBody) : Bool :=
  if b.success then b.message.isNone && b.error.isNone && b.messageName.isNone
  else
    (match b.error with
      | some e => errorIsKind e
      | none => false) &&
    b.message.isSome && b.messageName.isNone && b.data.isNone

/-- Read a string field of a JSON object; a missing or non-string field
behaves as the empty (falsy) string. -/
def getStrField (fields : List (String × Value)) (key : String) : String :=
  match fields.find? (fun e => e.1 == key) with
  | some (_, .str s) => s
  | _ => ""

/-- Decoding of the untyped HTTP payload into the login payload
(JavaScript destructuring). -/
def decodeLoginPayload : Option Value → LoginPayload
  | some (.obj fields) =>
      { username := getStrField fields "username"
        password := getStrField fields "password" }
  | _ => { username := "", password := "" }

def loginResponseToValue (r : LoginResponse) : Value :=
  .obj [("success", .bool r.success), ("sessionId", .str r.sessionId),
        ("username", .str r.username)]

/-- `loginHandler` in the shape `executeHandler` invokes: a thrown error
becomes a `thrown` outcome, a response becomes a `value` outcome. -/
def loginHandlerH (users : UserMap) (now : Nat) (sid : String) : Handler :=
  fun payload st =>
    match loginHandler users now sid (decodeLoginPayload payload) st with
    | (.ok r, st2) => (.value (loginResponseToValue r), st2)
    | (.error e, st2) => (.thrown e, st2)

/-- A trivial registered handler: returns `undefined` and leaves the
session store alone. -/
def voidHandler : Handler := fun _ st => (.void, st)

/-- A registry whose only operation is `connect-database`. -/
def registryConnect : Registry := fun n =>
  if n = .connectDatabase then some voidHandler else none

/-- A registry with one ordinary (non-exempt) operation. -/
def registryStats : Registry := fun n =>
  if n = .other "stats" then some voidHandler else none

/-- A registry whose only operation is `write-base64-file` (subject to the
database gate). -/
def registryWrite : Registry := fun n =>
  if n = .writeBase64File then some voidHandler else none

/-- A registry whose only operation is `logout`. -/
def registryLogout : Registry := fun n =>
  if n = .logout then some voidHandler else none

/-- A registry whose only operation is `login`, wired to a fresh default
user store. -/
def registryLogin : Registry := fun n =>
  if n = .login then some (loginHandlerH (userStoreInit 0) 0 "S1") else none

/-- The login payload `{username: "admin", password: "wrong"}`. -/
def payloadWrongPassword : Option Value :=
  some (.obj [("username", .str "admin"), ("password", .str "wrong")])

/-- A stored session of the `admin` principal. -/
def adminSessionC7 : Session :=
  { sessionId := "1700000000000-aaa-bbb", username := "admin"
    createdAt := 0, expiresAt := 100 }

/-- A server auth state holding the `admin` user and one of its
sessions. -/
def authStateC7 : ServerAuthState :=
  { users := [("admin",
      { username := "admin", passwordHash := "h0", createdAt := 0 })]
    sessions := [("1700000000000-aaa-bbb", adminSessionC7)] }

/-- A live session used as a valid credential in witnesses. -/
def sessionW : Session :=
  { sessionId := "T", username := "admin", createdAt := 0, expiresAt := 10 }

set_option maxRecDepth 1000000

/-! ## Helper lemmas on the association-list maps -/

theorem mapGet_mapDelete (st : SessionMap) (k : String) :
    mapGet (mapDelete st k) k = none := by
  induction st with
  | nil => rfl
  | cons e rest ih =>
    by_cases h : (e.1 == k) = true
    · simp [mapDelete, mapGet, List.filter_cons, h]
    · simp only [Bool.not_eq_true] at h
      simp [mapDelete, mapGet, List.filter_cons, h]

theorem getSession_fst_none (st : SessionMap) (now : Nat) (sid : String)
    (h : mapGet st sid = none) : (getSession st now sid).1 = none := by
  simp [getSession, h]

theorem mapGet_deleteUserSessions (st : SessionMap) (u sid : String)
    (h : ∀ e ∈ st, e.1 = sid → e.2.username = u) :
    mapGet (deleteUserSessions st u) sid = none := by
  induction st with
  | nil => rfl
  | cons e rest ih =>
    have hrest : ∀ e2 ∈ rest, e2.1 = sid → e2.2.username = u :=
      fun e2 he2 => h e2 (List.mem_cons_of_mem _ he2)
    by_cases hu : (e.2.username == u) = true
    · simpa [deleteUserSessions, mapGet, List.filter_cons, hu] using ih hrest
    · have hkey : (e.1 == sid) = false := by
        rcases hk : (e.1 == sid) with _ | _
        · rfl
        · exact absurd (beq_iff_eq.mpr (h e (List.mem_cons_self e rest)
            (beq_iff_eq.mp hk))) hu
      simp only [Bool.not_eq_true] at hu
      simpa [deleteUserSessions, mapGet, List.filter_cons, hu, hkey]
        using ih hrest

/-! ## Session lifecycle (claims C5, C6, C7) -/

/-- C5. For every session returned by `createSession(principal)`,
`getSession` on its token returns the stored session (same principal) at
any time not after `expiresAt`, returns `none` strictly after `expiresAt`,
and in the expired case deletes the session from the store. -/
theorem createSession_getSession (st : SessionMap) (username : String)
    (now : Nat) (sid : String) (t : Nat) :
    (createSession st username now sid).1 =
      { sessionId := sid, username := username, createdAt := now
        expiresAt := now + SESSION_DURATION_MS } ∧
    getSession (createSession st username now sid).2 t sid =
      (if t > now + SESSION_DURATION_MS
       then (none, mapDelete (createSession st username now sid).2 sid)
       else (some ((createSession st username now sid).1),
             (createSession st username now sid).2)) ∧
    mapGet (mapDelete (createSession st username now sid).2 sid) sid = none := by
  have hget : mapGet (createSession st username now sid).2 sid =
      some { sessionId := sid, username := username, createdAt := now
             expiresAt := now + SESSION_DURATION_MS } := by
    have hlive : (!(decide (now > now + SESSION_DURATION_MS))) = true := by
      simp
    simp [createSession, cleanExpiredSessions, mapSet, mapGet,
      List.filter_cons, hlive]
  refine ⟨rfl, ?_, mapGet_mapDelete _ _⟩
  simp only [getSession, hget]
  by_cases ht : t > now + SESSION_DURATION_MS
  · simp [ht]
  · simp [ht, createSession]

/-- C6. The token built by `generateSessionId` is a deterministic function
of the clock value and the two `Math.random()` draws: an observer who knows
that state predicts the next token exactly, as evaluated at a concrete
state; `Math.random()` is a non-cryptographic PRNG, so the token is not
cryptographically unpredictable. -/
theorem generateSessionId_predictable :
    (∃ predict : Nat → String → String → String,
      ∀ now rand1 rand2,
        predict now rand1 rand2 = generateSessionId now rand1 rand2) ∧
    generateSessionId 1700000000000 "k3j2h1g4f" "9a8b7c6d5" =
      "1700000000000-k3j2h1g4f-9a8b7c6d5" :=
  ⟨⟨generateSessionId, fun _ _ _ => rfl⟩, by decide⟩

/-- C7 counterexample. Changing the password of `admin` through
`updatePassword` succeeds but leaves the session store untouched:
the previously issued token of `admin` still resolves afterwards, so a
password change does not revoke the sessions of the principal. -/
theorem updatePassword_keeps_sessions :
    (updatePasswordApp authStateC7 "admin" "newpassword").1 = true ∧
    (getSession (updatePasswordApp authStateC7 "admin" "newpassword").2.sessions
        5 "1700000000000-aaa-bbb").1 = some adminSessionC7 ∧
    adminSessionC7.username = "admin" := by
  refine ⟨by decide, by decide, rfl⟩

/-- C7 amended. `updatePassword` itself deletes no sessions; bulk
revocation is available only through `deleteUserSessions`, which removes
every session of the principal, after which `getSession` returns `none`
for each of the tokens that stored a session of that principal. -/
theorem deleteUserSessions_revokes (st : SessionMap) (u : String) (t : Nat)
    (sid : String) (h : ∀ e ∈ st, e.1 = sid → e.2.username = u) :
    mapGet (deleteUserSessions st u) sid = none ∧
    (getSession (deleteUserSessions st u) t sid).1 = none := by
  have hm := mapGet_deleteUserSessions st u sid h
  exact ⟨hm, getSession_fst_none _ _ _ hm⟩

/-- C7 witness for `deleteUserSessions_revokes` at a concrete store. -/
theorem deleteUserSessions_revokes_witness :
    mapGet (deleteUserSessions [("1700000000000-aaa-bbb", adminSessionC7)]
      "admin") "1700000000000-aaa-bbb" = none ∧
    (getSession (deleteUserSessions [("1700000000000-aaa-bbb", adminSessionC7)]
      "admin") 5 "1700000000000-aaa-bbb").1 = none :=
  deleteUserSessions_revokes _ "admin" 5 "1700000000000-aaa-bbb" (by decide)

/-! ## Hybrid client (claim C9) -/

/-- C9. `HybridApiClient.send` always delegates to the HTTP request path,
independently of the push-channel client state; a successful result is
returned to the caller and every failed call surfaces as a typed
`ErrorCode` error value. -/
theorem hybridSend_spec (Ws : Type) (c c2 : HybridApiClient Ws)
    (r : ApiResult) :
    hybridSend c r = httpApiSend r ∧
    hybridSend c r = hybridSend c2 r ∧
    (∀ d, hybridSend c (.success d) = .ok d) ∧
    (∀ e m, ∃ cc : ErrorCode, hybridSend c (.failure e m) = .error cc) := by
  refine ⟨rfl, rfl, fun d => rfl, fun e m => ?_⟩
  cases e with
  | code cc => exact ⟨cc, rfl⟩
  | litStr s => exact ⟨.UnknownError, rfl⟩

/-! ## Default credentials (claim C10) -/

set_option maxRecDepth 1000000 in
/-- C10. A fresh user store holds the default `admin` user whose stored
hash is the plain SHA-256 digest of "admin", `verifyCredentials` accepts
the default credentials, and the login handler succeeds with them,
creating a session. -/
theorem default_admin_login (now now2 : Nat) (sid : String)
    (st : SessionMap) :
    verifyCredentials (userStoreInit now) "admin" "admin" = true ∧
    userGet (userStoreInit now) "admin" =
      some { username := "admin", passwordHash := hashPassword "admin"
             createdAt := now } ∧
    hashPassword "admin" =
      "8c6976e5b5410415bde908bd4dee15dfb167a9c873fc4bb8a81f6f2ab448a918" ∧
    (loginHandler (userStoreInit now) now2 sid
        { username := "admin", password := "admin" } st).1 =
      .ok { success := true, sessionId := sid, username := "admin" } := by
  have hv : verifyCredentials (userStoreInit now) "admin" "admin" = true := by
    simp [verifyCredentials, userStoreInit, createUser, userSet, userGet]
  refine ⟨hv, rfl, by decide, ?_⟩
  simp [loginHandler, hv, createSession]

/-! ## Gating pipeline (claims C1, C2, C3, C4, C8) -/

theorem mem_public_mem_without_db (name : MessageName)
    (h : name ∈ publicHandlers) : name ∈ handlersWithoutDatabase := by
  rcases (by simpa [publicHandlers] using h) with rfl | rfl | rfl | rfl <;>
    simp [handlersWithoutDatabase]

/-- C1 counterexample. The `connect-database` operation is a fourth
auth-exempt operation: it is outside the claimed three-element exemption
set, yet dispatching it with no session token invokes its handler and
succeeds instead of being stopped by the authentication gate. -/
theorem connectDatabase_bypasses_auth_gate :
    (executeHandler registryConnect [] 0 false .connectDatabase none
      none).handlerInvoked = true ∧
    (executeHandler registryConnect [] 0 false .connectDatabase none
      none).status = 200 ∧
    MessageName.connectDatabase ∉
      ([.initApplication, .login, .checkAuth] : List MessageName) :=
  ⟨by decide, by decide, by decide⟩

/-- C1 amended. Exactly four operations are exempt from the authentication
gate: bootstrap, connect-database, login and auth-check; every other
registered operation dispatched without a session token is rejected with
status 401 and its handler is never invoked. -/
theorem auth_exempt_exactly_four :
    publicHandlers =
      [.initApplication, .connectDatabase, .login, .checkAuth] ∧
    ∀ (registry : Registry) (st : SessionMap) (now : Nat) (db : Bool)
      (name : MessageName) (payload : Option Value),
      (registry name).isSome = true →
      (((executeHandler registry st now db name payload none).status = 401 ↔
          name ∉ publicHandlers) ∧
        (name ∉ publicHandlers →
          (executeHandler registry st now db name payload
            none).handlerInvoked = false)) := by
  refine ⟨rfl, ?_⟩
  intro registry st now db name payload hreg
  rcases hr : registry name with _ | handler
  · rw [hr] at hreg; simp at hreg
  · by_cases hpub : name ∈ publicHandlers
    · have hne : (executeHandler registry st now db name payload
          none).status ≠ 401 := by
        unfold executeHandler
        rw [hr]
        simp only [hpub, if_pos]
        split
        · simp
        · split <;> simp
      exact ⟨by simp [hne, hpub], fun hn => absurd hpub hn⟩
    · unfold executeHandler
      rw [hr]
      simp [hpub]

/-- C1 witness: `logout` is registered but not auth-exempt, and a call
with no token is rejected with 401. -/
theorem auth_exempt_exactly_four_witness :
    (executeHandler registryLogout [] 0 true .logout none none).status =
      401 :=
  ((auth_exempt_exactly_four.2 registryLogout [] 0 true .logout none
    (by decide)).1).mpr (by decide)

/-- C2. For every registered operation that is not auth-exempt, a dispatch
carrying no session token, or a token that does not resolve to a live
session, is answered with status 401, `success: false` and the
"UNAUTHORIZED" error, and the handler is never invoked. -/
theorem executeHandler_auth_gate (registry : Registry) (st : SessionMap)
    (now : Nat) (dbConnected : Bool) (messageName : MessageName)
    (payload : Option Value) (sessionId : Option String)
    (hreg : (registry messageName).isSome = true)
    (hpub : messageName ∉ publicHandlers)
    (hsess : ∀ s, sessionId = some s → (getSession st now s).1 = none) :
    (executeHandler registry st now dbConnected messageName payload
        sessionId).status = 401 ∧
    (executeHandler registry st now dbConnected messageName payload
        sessionId).body.success = false ∧
    (executeHandler registry st now dbConnected messageName payload
        sessionId).body.error = some (.litStr "UNAUTHORIZED") ∧
    (executeHandler registry st now dbConnected messageName payload
        sessionId).handlerInvoked = false := by
  rcases hr : registry messageName with _ | handler
  · rw [hr] at hreg; simp at hreg
  · unfold executeHandler
    rw [hr]
    simp only [hpub, if_neg]
    cases sessionId with
    | none => simp
    | some s =>
      have := hsess s rfl
      simp [this]

/-- C2 witness: a non-exempt operation dispatched without a token. -/
theorem executeHandler_auth_gate_witness :
    (executeHandler registryStats [] 0 true (.other "stats") none
        none).status = 401 ∧
    (executeHandler registryStats [] 0 true (.other "stats") none
        none).body.success = false ∧
    (executeHandler registryStats [] 0 true (.other "stats") none
        none).body.error = some (.litStr "UNAUTHORIZED") ∧
    (executeHandler registryStats [] 0 true (.other "stats") none
        none).handlerInvoked = false :=
  executeHandler_auth_gate registryStats [] 0 true (.other "stats") none
    none (by decide) (by decide) (fun s h => nomatch h)

/-- C3. For every registered operation outside the readiness-exempt set
`handlersWithoutDatabase`, a dispatch passing the authentication gate while
the database is not connected is answered with status 503 (the body carries
the generic `UnknownError` code and the database message) and the handler
is never invoked. -/
theorem executeHandler_readiness_gate (registry : Registry)
    (st : SessionMap) (now : Nat) (name : MessageName)
    (payload : Option Value) (sid : String) (sess : Session)
    (hreg : (registry name).isSome = true)
    (hdb : name ∉ handlersWithoutDatabase)
    (hsess : (getSession st now sid).1 = some sess) :
    (executeHandler registry st now false name payload
        (some sid)).status = 503 ∧
    (executeHandler registry st now false name payload
        (some sid)).body.success = false ∧
    (executeHandler registry st now false name payload
        (some sid)).body.error = some (.code .UnknownError) ∧
    (executeHandler registry st now false name payload
        (some sid)).body.message =
      some "Database not connected. Please connect to database first." ∧
    (executeHandler registry st now false name payload
        (some sid)).handlerInvoked = false := by
  have hpub : name ∉ publicHandlers := fun h =>
    hdb (mem_public_mem_without_db name h)
  rcases hr : registry name with _ | handler
  · rw [hr] at hreg; simp at hreg
  · unfold executeHandler
    rw [hr]
    simp [hpub, hsess, hdb]

/-- C3 witness: a database-dependent operation with a valid session while
the database is down. -/
theorem executeHandler_readiness_gate_witness :
    (executeHandler registryWrite [("T", sessionW)] 0 false
        .writeBase64File none (some "T")).status = 503 ∧
    (executeHandler registryWrite [("T", sessionW)] 0 false
        .writeBase64File none (some "T")).body.success = false ∧
    (executeHandler registryWrite [("T", sessionW)] 0 false
        .writeBase64File none (some "T")).body.error =
      some (.code .UnknownError) ∧
    (executeHandler registryWrite [("T", sessionW)] 0 false
        .writeBase64File none (some "T")).body.message =
      some "Database not connected. Please connect to database first." ∧
    (executeHandler registryWrite [("T", sessionW)] 0 false
        .writeBase64File none (some "T")).handlerInvoked = false :=
  executeHandler_readiness_gate registryWrite [("T", sessionW)] 0
    .writeBase64File none "T" sessionW (by decide) (by decide) (by decide)

/-- C4 counterexample. The unknown-operation response does not carry the
uniform envelope: its body has no `message` field and instead carries the
extra `messageName` field. -/
theorem unknown_operation_envelope_not_uniform :
    uniformEnvelope (executeHandler (fun _ => none) [] 0 true
      (.other "missing-op") none none).body = false ∧
    (executeHandler (fun _ => none) [] 0 true
      (.other "missing-op") none none).body.message = none ∧
    (executeHandler (fun _ => none) [] 0 true
      (.other "missing-op") none none).body.messageName =
      some (.other "missing-op") :=
  ⟨by decide, by decide, by decide⟩

/-- C4 amended. For every registered operation and every outcome, the
response body carries the uniform envelope: `{success: true}` with optional
`data` on success, and `{success: false, error, message}` with `error` a
kind of the closed enumeration on failure; only the unknown-operation
response deviates. -/
theorem uniform_envelope_registered (registry : Registry) (st : SessionMap)
    (now : Nat) (db : Bool) (name : MessageName) (payload : Option Value)
    (sid : Option String)
    (hreg : (registry name).isSome = true) :
    uniformEnvelope
      (executeHandler registry st now db name payload sid).body = true := by
  rcases hr : registry name with _ | handler
  · rw [hr] at hreg; simp at hreg
  · unfold executeHandler
    rw [hr]
    by_cases hpub : name ∈ publicHandlers
    · simp only [hpub, if_pos]
      split
      · simp [uniformEnvelope, errorIsKind]
      · split <;> simp [uniformEnvelope, errorIsKind]
    · cases sid with
      | none => simp [uniformEnvelope, errorIsKind, hpub]
      | some s =>
        rcases hg : (getSession st now s).1 with _ | sess
        · simp [uniformEnvelope, errorIsKind, hpub, hg]
        · simp only [hpub, hg, if_neg, not_false_eq_true, ite_false]
          split
          · simp [uniformEnvelope, errorIsKind]
          · split <;> simp [uniformEnvelope, errorIsKind]

/-- C4 witness: a registered void operation produces a uniform success
body. -/
theorem uniform_envelope_registered_witness :
    uniformEnvelope (executeHandler registryLogout [] 0 true .logout none
      none).body = true :=
  uniform_envelope_registered registryLogout [] 0 true .logout none none
    (by decide)

/-- C8 counterexample. Dispatching login with the existing `admin` user
and a wrong password yields the generic `UnknownError` kind, not a
`DomainError` kind: the handler throws a plain `Error`, which the catch
boundary maps to `UnknownError`. -/
theorem login_wrong_password_not_domain_error :
    (executeHandler registryLogin [] 0 true .login payloadWrongPassword
      none).body.error = some (.code .UnknownError) ∧
    ¬ ∃ n, (executeHandler registryLogin [] 0 true .login
      payloadWrongPassword none).body.error =
        some (.code (.DomainError n)) := by
  have h1 : (executeHandler registryLogin [] 0 true .login
      payloadWrongPassword none).body.error =
      some (.code .UnknownError) := by decide
  refine ⟨h1, ?_⟩
  rintro ⟨n, hn⟩
  rw [h1] at hn
  simp at hn

/-- C8 amended. Dispatching login with an existing username but a wrong
password is answered with status 500 and a failure body whose error kind is
`UnknownError` and whose message indicates invalid credentials, and no
session is created: the session store is unchanged. -/
theorem login_wrong_password_unknown_error :
    (executeHandler registryLogin [] 0 true .login payloadWrongPassword
      none).status = 500 ∧
    (executeHandler registryLogin [] 0 true .login payloadWrongPassword
      none).body.success = false ∧
    (executeHandler registryLogin [] 0 true .login payloadWrongPassword
      none).body.message = some "Invalid username or password" ∧
    (executeHandler registryLogin [] 0 true .login payloadWrongPassword
      none).body.error = some (.code .UnknownError) ∧
    (executeHandler registryLogin [] 0 true .login payloadWrongPassword
      none).handlerInvoked = true ∧
    (executeHandler registryLogin [] 0 true .login payloadWrongPassword
      none).sessions = [] :=
  ⟨by decide, by decide, by decide, by decide, by decide, by decide⟩

end Csdm
